import Mathlib

/-!
# Deployment promotion state machine — verification development

Shallow embedding of `deployment-pipeline.py`: the `DeploymentState` enum,
the `DeploymentContext` dataclass, and the `DeploymentPipeline` class with
its `advance`, `cancel` and `force_rollback` operations.

Modelling conventions:
* Python floats (`test_coverage`, `canary_error_rate`, `canary_latency_p99`,
  `rollout_percentage`) become `Rat`; every literal threshold in the source
  (0.8, 0.6, 0.4, 0.5, 0.01, 0.05, 500, 1000, 25, 50, 100) is exactly
  representable, so ordering behaviour is preserved.
* Python ints (`approval_count`, `max_retries`, `retry_count`) become `Int`.
* `datetime` values become `Int` ticks measured in seconds;
  `timedelta(hours=24)` becomes `24 * 3600`. The call-time value of
  `datetime.utcnow()` is passed to `advance`, `cancel` and `force_rollback`
  as an explicit `now : Int` argument.
* Raising `ValueError` is modelled by returning the error message in an
  `Option String` component, paired with the (unchanged) pipeline value.
-/

/-- The 19-state enum `DeploymentState` of the source. -/
inductive DeploymentState where
  | pending
  | validating
  | validation_failed
  | building
  | build_failed
  | testing
  | test_failed
  | awaiting_approval
  | approved
  | rejected
  | deploying_canary
  | canary_monitoring
  | canary_failed
  | rolling_out
  | rollout_paused
  | deployed
  | rolling_back
  | rolled_back
  | cancelled
deriving DecidableEq

/-- The string value of each enum member, as declared in the source. -/
def DeploymentState.value : DeploymentState → String
  | .pending => "pending"
  | .validating => "validating"
  | .validation_failed => "validation_failed"
  | .building => "building"
  | .build_failed => "build_failed"
  | .testing => "testing"
  | .test_failed => "test_failed"
  | .awaiting_approval => "awaiting_approval"
  | .approved => "approved"
  | .rejected => "rejected"
  | .deploying_canary => "deploying_canary"
  | .canary_monitoring => "canary_monitoring"
  | .canary_failed => "canary_failed"
  | .rolling_out => "rolling_out"
  | .rollout_paused => "rollout_paused"
  | .deployed => "deployed"
  | .rolling_back => "rolling_back"
  | .rolled_back => "rolled_back"
  | .cancelled => "cancelled"

/-- The `DeploymentContext` dataclass of the source. -/
structure DeploymentContext where
  deployment_id : String
  service_name : String
  version : String
  environment : String
  commit_sha : String
  author : String
  is_hotfix : Bool
  requires_migration : Bool
  test_coverage : Rat
  canary_error_rate : Rat
  canary_latency_p99 : Rat
  approval_count : Int
  max_retries : Int
  retry_count : Int
  rollout_percentage : Rat
  previous_version : Option String
  started_at : Option Int
deriving DecidableEq

/-- The Python `@dataclass` decorator generates a constructor that only
stores the given field values; there is no `__post_init__`, so construction
never raises and never alters a field. Modelled as a total function that
returns the record unchanged, wrapped in `Except` to give the failure that
construction could in principle signal a place in the type. -/
def constructContext (ctx : DeploymentContext) : Except String DeploymentContext :=
  Except.ok ctx

/-- `DeploymentPipeline._validate` of the source. -/
def validate (ctx : DeploymentContext) : DeploymentState :=
  if ctx.environment = "production" then
    if ctx.requires_migration ∧ ¬ ctx.is_hotfix then
      if ctx.test_coverage < 0.8 then .validation_failed
      else if ctx.test_coverage < 0.6 then .validation_failed
      else .building
    else
      if ctx.test_coverage < 0.6 then .validation_failed
      else .building
  else if ctx.environment = "staging" then
    if ctx.test_coverage < 0.4 then .validation_failed
    else .building
  else .building

/-- `DeploymentPipeline._build` of the source: an empty `commit_sha` is
falsy in Python. -/
def build (ctx : DeploymentContext) : DeploymentState :=
  if ctx.commit_sha = "" then .build_failed
  else .testing

/-- `DeploymentPipeline._run_tests` of the source. -/
def run_tests (ctx : DeploymentContext) : DeploymentState :=
  if ctx.test_coverage < 0.5 ∧ ctx.environment = "production" then .test_failed
  else if ctx.is_hotfix ∧ ctx.environment = "staging" then .approved
  else .awaiting_approval

/-- `DeploymentPipeline._check_approval` of the source; a `datetime` value
is always truthy in Python, so `if self.ctx.started_at` matches on `some`. -/
def check_approval (ctx : DeploymentContext) (now : Int) : DeploymentState :=
  let required_approvals : Int :=
    if ctx.environment = "production" then
      if ctx.requires_migration then 3 else 2
    else 1
  if ctx.approval_count ≥ required_approvals then .approved
  else
    match ctx.started_at with
    | some t => if now - t > 24 * 3600 then .rejected else .awaiting_approval
    | none => .awaiting_approval

/-- `DeploymentPipeline._decide_deployment_strategy` of the source. -/
def decide_deployment_strategy (ctx : DeploymentContext) : DeploymentState :=
  if ctx.environment = "staging" then .rolling_out
  else if ctx.is_hotfix then .rolling_out
  else if ctx.requires_migration then .deploying_canary
  else .deploying_canary

/-- `DeploymentPipeline._evaluate_canary` of the source
(`error_threshold = 0.01`, `latency_threshold = 500`). -/
def evaluate_canary (ctx : DeploymentContext) : DeploymentState :=
  if ctx.canary_error_rate > 0.01 then .canary_failed
  else if ctx.canary_latency_p99 > 500 then
    if ctx.canary_latency_p99 > 500 * 2 then .canary_failed
    else .rollout_paused
  else .rolling_out

/-- `DeploymentPipeline._check_rollout_progress` of the source; it may
mutate `ctx.rollout_percentage`, so it returns the updated context too. -/
def check_rollout_progress (ctx : DeploymentContext) : DeploymentState × DeploymentContext :=
  if ctx.rollout_percentage ≥ 100 then (.deployed, ctx)
  else if ctx.canary_error_rate > 0.05 then (.rolling_back, ctx)
  else
    let ctx' :=
      if ctx.rollout_percentage < 25 then { ctx with rollout_percentage := 25 }
      else if ctx.rollout_percentage < 50 then { ctx with rollout_percentage := 50 }
      else if ctx.rollout_percentage < 100 then { ctx with rollout_percentage := 100 }
      else ctx
    (.rolling_out, ctx')

/-- The `DeploymentPipeline` object state: context, current state, history.
History entries are the `(fromState, toState, timestamp)` triples appended
by the source, with the timestamp as `Int` ticks. -/
structure DeploymentPipeline where
  ctx : DeploymentContext
  state : DeploymentState
  history : List (DeploymentState × DeploymentState × Int)

/-- `DeploymentPipeline.__init__`: wraps a context, starts at PENDING with
an empty history. -/
def DeploymentPipeline.init (ctx : DeploymentContext) : DeploymentPipeline :=
  { ctx := ctx, state := .pending, history := [] }

/-- The state-dispatch body of `DeploymentPipeline.advance` (lines 59 to
125 of the source): from the current state and context it computes the new
state and the (possibly mutated) context. The branches for
VALIDATION_FAILED and BUILD_FAILED increment `retry_count`; the
ROLLING_OUT branch delegates to `check_rollout_progress`; ROLLOUT_PAUSED,
DEPLOYED, ROLLED_BACK and CANCELLED fall through with no change. -/
def advanceStep (s : DeploymentState) (ctx : DeploymentContext) (now : Int) :
    DeploymentState × DeploymentContext :=
  match s with
  | .pending => (.validating, ctx)
  | .validating => (validate ctx, ctx)
  | .validation_failed =>
      if ctx.retry_count < ctx.max_retries then
        (.validating, { ctx with retry_count := ctx.retry_count + 1 })
      else (.cancelled, ctx)
  | .building => (build ctx, ctx)
  | .build_failed =>
      if ctx.retry_count < ctx.max_retries then
        (.building, { ctx with retry_count := ctx.retry_count + 1 })
      else (.cancelled, ctx)
  | .testing => (run_tests ctx, ctx)
  | .test_failed => (.cancelled, ctx)
  | .awaiting_approval => (check_approval ctx now, ctx)
  | .approved => (decide_deployment_strategy ctx, ctx)
  | .rejected => (.cancelled, ctx)
  | .deploying_canary => (.canary_monitoring, ctx)
  | .canary_monitoring => (evaluate_canary ctx, ctx)
  | .canary_failed => (.rolling_back, ctx)
  | .rolling_out => check_rollout_progress ctx
  | .rollout_paused => (.rollout_paused, ctx)
  | .deployed => (.deployed, ctx)
  | .rolling_back => (.rolled_back, ctx)
  | .rolled_back => (.rolled_back, ctx)
  | .cancelled => (.cancelled, ctx)

/-- `DeploymentPipeline.advance`: runs one dispatch step and, exactly when
the state changed, appends one `(prev, new, timestamp)` history entry. -/
def advance (p : DeploymentPipeline) (now : Int) : DeploymentPipeline :=
  let r := advanceStep p.state p.ctx now
  { ctx := r.2
    state := r.1
    history :=
      if r.1 ≠ p.state then p.history ++ [(p.state, r.1, now)]
      else p.history }

/-- Iterated `advance`: `run p now n` is the pipeline after `n` successive
`advance` calls, all evaluated at time `now`. -/
def run (p : DeploymentPipeline) (now : Int) : Nat → DeploymentPipeline
  | 0 => p
  | n + 1 => advance (run p now n) now

/-- The `cancellable` guard set of `DeploymentPipeline.cancel`. -/
def cancellable : List DeploymentState :=
  [.pending, .validating, .validation_failed, .building, .build_failed,
   .testing, .awaiting_approval, .rollout_paused]

/-- `DeploymentPipeline.cancel`: raises `ValueError` (returned as
`some message`, pipeline unchanged) outside the guard set; otherwise moves
to CANCELLED and appends one history entry. -/
def cancel (p : DeploymentPipeline) (now : Int) : Option String × DeploymentPipeline :=
  if p.state ∈ cancellable then
    (none,
     { p with
        state := .cancelled
        history := p.history ++ [(p.state, .cancelled, now)] })
  else (some ("Cannot cancel deployment in state: " ++ p.state.value), p)

/-- `DeploymentPipeline.force_rollback`: raises `ValueError` from
CANCELLED, ROLLED_BACK or PENDING; otherwise moves to ROLLING_BACK and
appends one history entry. -/
def force_rollback (p : DeploymentPipeline) (now : Int) : Option String × DeploymentPipeline :=
  if p.state = .cancelled ∨ p.state = .rolled_back ∨ p.state = .pending then
    (some ("Cannot rollback from state: " ++ p.state.value), p)
  else
    (none,
     { p with
        state := .rolling_back
        history := p.history ++ [(p.state, .rolling_back, now)] })

/-- The required quorum as the spec words it: 3 for production with
migration, 2 for production without, 1 otherwise. -/
def specQuorum (ctx : DeploymentContext) : Int :=
  if ctx.environment = "production" then
    if ctx.requires_migration then 3 else 2
  else 1

/-- The range invariants the spec states for context construction:
`test_coverage` in [0,1], `rollout_percentage` in [0,100],
`retry_count ≤ max_retries`. -/
def contextRangesOk (ctx : DeploymentContext) : Prop :=
  0 ≤ ctx.test_coverage ∧ ctx.test_coverage ≤ 1 ∧
  0 ≤ ctx.rollout_percentage ∧ ctx.rollout_percentage ≤ 100 ∧
  ctx.retry_count ≤ ctx.max_retries

instance (ctx : DeploymentContext) : Decidable (contextRangesOk ctx) := by
  unfold contextRangesOk
  infer_instance

/-- A concrete production context with a mid-flight rollout percentage of 50,
used to exercise the ROLLING_OUT branch on concrete inputs. -/
def rolloutCtx : DeploymentContext :=
  { deployment_id := "d-1", service_name := "svc", version := "2.0.0",
    environment := "production", commit_sha := "abc123", author := "dev",
    is_hotfix := false, requires_migration := false, test_coverage := 0.9,
    canary_error_rate := 0, canary_latency_p99 := 120, approval_count := 2,
    max_retries := 3, retry_count := 0, rollout_percentage := 50,
    previous_version := some "1.9.0", started_at := none }

/-- A concrete context violating every range invariant the spec states:
`test_coverage = 2`, `rollout_percentage = 150`, `retry_count > max_retries`. -/
def sampleBadContext : DeploymentContext :=
  { deployment_id := "d-2", service_name := "svc", version := "3.0.0",
    environment := "production", commit_sha := "def456", author := "dev",
    is_hotfix := false, requires_migration := false, test_coverage := 2,
    canary_error_rate := 0, canary_latency_p99 := 0, approval_count := 0,
    max_retries := 2, retry_count := 5, rollout_percentage := 150,
    previous_version := none, started_at := none }

/-- A concrete production context whose coverage (0.3) fails every
production validation threshold, with `max_retries = 2`. -/
def retryCtx : DeploymentContext :=
  { deployment_id := "d-3", service_name := "svc", version := "1.1.0",
    environment := "production", commit_sha := "aaa111", author := "dev",
    is_hotfix := false, requires_migration := false, test_coverage := 0.3,
    canary_error_rate := 0, canary_latency_p99 := 0, approval_count := 0,
    max_retries := 2, retry_count := 0, rollout_percentage := 0,
    previous_version := none, started_at := none }

/-- A concrete context whose canary exceeds both the error-rate threshold
(0.02 > 0.01) and the hard latency threshold (1500 > 1000). -/
def canaryCtx : DeploymentContext :=
  { deployment_id := "d-4", service_name := "svc", version := "4.0.0",
    environment := "production", commit_sha := "bbb222", author := "dev",
    is_hotfix := false, requires_migration := false, test_coverage := 0.9,
    canary_error_rate := 0.02, canary_latency_p99 := 1500, approval_count := 3,
    max_retries := 2, retry_count := 0, rollout_percentage := 0,
    previous_version := none, started_at := none }

/-- A concrete context at the start of a staged rollout:
`rollout_percentage = 0`, `canary_error_rate = 0`. -/
def stagedCtx : DeploymentContext :=
  { deployment_id := "d-5", service_name := "svc", version := "5.0.0",
    environment := "staging", commit_sha := "ccc333", author := "dev",
    is_hotfix := false, requires_migration := false, test_coverage := 0.9,
    canary_error_rate := 0, canary_latency_p99 := 100, approval_count := 1,
    max_retries := 2, retry_count := 0, rollout_percentage := 0,
    previous_version := none, started_at := none }

/-- A concrete context whose environment is neither production nor staging. -/
def devCtx : DeploymentContext :=
  { deployment_id := "d-6", service_name := "svc", version := "6.0.0",
    environment := "dev", commit_sha := "ddd444", author := "dev",
    is_hotfix := false, requires_migration := true, test_coverage := 0,
    canary_error_rate := 0, canary_latency_p99 := 0, approval_count := 0,
    max_retries := 2, retry_count := 0, rollout_percentage := 0,
    previous_version := none, started_at := none }

theorem run_succ_state (p : DeploymentPipeline) (now : Int) (n : Nat) :
    (run p now (n + 1)).state = (advanceStep (run p now n).state (run p now n).ctx now).1 := rfl

theorem run_succ_ctx (p : DeploymentPipeline) (now : Int) (n : Nat) :
    (run p now (n + 1)).ctx = (advanceStep (run p now n).state (run p now n).ctx now).2 := rfl

theorem validate_retry_update (ctx : DeploymentContext) (q : Int) :
    validate { ctx with retry_count := q } = validate ctx := rfl

theorem run_cancelled (p : DeploymentPipeline) (now : Int) (h : p.state = .cancelled) :
    ∀ n, (run p now n).state = .cancelled := by
  intro n
  induction n with
  | zero => exact h
  | succ k ih => rw [run_succ_state, ih]; rfl

theorem run_add (p : DeploymentPipeline) (now : Int) (k m : Nat) :
    run p now (k + m) = run (run p now k) now m := by
  induction m with
  | zero => rfl
  | succ m ih =>
      show advance (run p now (k + m)) now = advance (run (run p now k) now m) now
      rw [ih]

/-- Claim C1: from AWAITING_APPROVAL, advance computes the quorum (3 for
production with migration, 2 for production without, 1 otherwise), returns
APPROVED when approval_count reaches it, returns REJECTED when the count is
short, started_at is set and more than 24 hours have elapsed, and otherwise
stays at AWAITING_APPROVAL. -/
theorem claim_C1 (ctx : DeploymentContext)
    (hist : List (DeploymentState × DeploymentState × Int)) (now : Int) :
    (advance ⟨ctx, .awaiting_approval, hist⟩ now).state =
      if ctx.approval_count ≥ specQuorum ctx then .approved
      else
        match ctx.started_at with
        | some t => if now - t > 24 * 3600 then .rejected else .awaiting_approval
        | none => .awaiting_approval := rfl

/-- Claim C2: with max_retries = 2, retry_count = 0 and validation always
failing, the run from PENDING is in VALIDATING exactly at steps 1, 3 and 5
(three attempts, never a fourth), retry_count is incremented to 1 and then
2 on the two retry transitions, and from step 7 on the state is CANCELLED. -/
theorem claim_C2 (ctx : DeploymentContext)
    (hist : List (DeploymentState × DeploymentState × Int)) (now : Int)
    (hmax : ctx.max_retries = 2) (hret : ctx.retry_count = 0)
    (hfail : validate ctx = .validation_failed) :
    (∀ n, (run ⟨ctx, .pending, hist⟩ now n).state = .validating ↔ (n = 1 ∨ n = 3 ∨ n = 5)) ∧
    (run ⟨ctx, .pending, hist⟩ now 3).ctx.retry_count = 1 ∧
    (run ⟨ctx, .pending, hist⟩ now 5).ctx.retry_count = 2 ∧
    (∀ n, 7 ≤ n → (run ⟨ctx, .pending, hist⟩ now n).state = .cancelled) := by
  have s1 : (run ⟨ctx, .pending, hist⟩ now 1).state = .validating := rfl
  have c1 : (run ⟨ctx, .pending, hist⟩ now 1).ctx = ctx := rfl
  have s2 : (run ⟨ctx, .pending, hist⟩ now 2).state = .validation_failed := by
    rw [run_succ_state, s1, c1]; exact hfail
  have c2 : (run ⟨ctx, .pending, hist⟩ now 2).ctx = ctx := by
    rw [run_succ_ctx, s1, c1]; rfl
  have s3 : (run ⟨ctx, .pending, hist⟩ now 3).state = .validating := by
    rw [run_succ_state, s2, c2]; norm_num [advanceStep, hret, hmax]
  have c3 : (run ⟨ctx, .pending, hist⟩ now 3).ctx = { ctx with retry_count := 1 } := by
    rw [run_succ_ctx, s2, c2]; norm_num [advanceStep, hret, hmax]
  have s4 : (run ⟨ctx, .pending, hist⟩ now 4).state = .validation_failed := by
    rw [run_succ_state, s3, c3]
    exact (validate_retry_update ctx 1).trans hfail
  have c4 : (run ⟨ctx, .pending, hist⟩ now 4).ctx = { ctx with retry_count := 1 } := by
    rw [run_succ_ctx, s3, c3]; rfl
  have s5 : (run ⟨ctx, .pending, hist⟩ now 5).state = .validating := by
    rw [run_succ_state, s4, c4]; norm_num [advanceStep, hmax]
  have c5 : (run ⟨ctx, .pending, hist⟩ now 5).ctx = { ctx with retry_count := 2 } := by
    rw [run_succ_ctx, s4, c4]; norm_num [advanceStep, hmax]
  have s6 : (run ⟨ctx, .pending, hist⟩ now 6).state = .validation_failed := by
    rw [run_succ_state, s5, c5]
    exact (validate_retry_update ctx 2).trans hfail
  have c6 : (run ⟨ctx, .pending, hist⟩ now 6).ctx = { ctx with retry_count := 2 } := by
    rw [run_succ_ctx, s5, c5]; rfl
  have s7 : (run ⟨ctx, .pending, hist⟩ now 7).state = .cancelled := by
    rw [run_succ_state, s6, c6]; norm_num [advanceStep, hmax]
  have habs : ∀ m, (run ⟨ctx, .pending, hist⟩ now (7 + m)).state = .cancelled := by
    intro m
    rw [run_add]
    exact run_cancelled _ now s7 m
  refine ⟨?_, ?_, ?_, ?_⟩
  · intro n
    match n with
    | 0 => simp [run]
    | 1 => simp [s1]
    | 2 => simp [s2]
    | 3 => simp [s3]
    | 4 => simp [s4]
    | 5 => simp [s5]
    | 6 => simp [s6]
    | (m + 7) =>
        rw [show m + 7 = 7 + m from Nat.add_comm m 7, habs m]
        constructor
        · intro hc; exact absurd hc (by simp)
        · intro hc; omega
  · rw [c3]
  · rw [c5]
  · intro n hn
    obtain ⟨m, rfl⟩ : ∃ m, n = 7 + m := ⟨n - 7, by omega⟩
    exact habs m

/-- Witness for claim C2 at a concrete context (production, coverage 0.3,
max_retries 2): step 5 is the third VALIDATING attempt and step 7 is
CANCELLED. -/
theorem claim_C2_witness :
    ((run ⟨retryCtx, .pending, []⟩ 0 5).state = .validating ↔ (5 = 1 ∨ 5 = 3 ∨ 5 = 5)) ∧
    (run ⟨retryCtx, .pending, []⟩ 0 7).state = .cancelled :=
  ⟨(claim_C2 retryCtx [] 0 rfl rfl (by norm_num [validate, retryCtx])).1 5,
   (claim_C2 retryCtx [] 0 rfl rfl (by norm_num [validate, retryCtx])).2.2.2 7 (by norm_num)⟩

/-- Claim C3: from CANARY_MONITORING, advance returns CANARY_FAILED when
the error rate exceeds 0.01, otherwise branches on latency (above 1000
CANARY_FAILED, above 500 ROLLOUT_PAUSED), otherwise ROLLING_OUT; and the
error-rate check wins when both thresholds are exceeded. -/
theorem claim_C3 (ctx : DeploymentContext)
    (hist : List (DeploymentState × DeploymentState × Int)) (now : Int) :
    ((advance ⟨ctx, .canary_monitoring, hist⟩ now).state =
      (if ctx.canary_error_rate > 0.01 then .canary_failed
       else if ctx.canary_latency_p99 > 500 then
         if ctx.canary_latency_p99 > 1000 then .canary_failed else .rollout_paused
       else .rolling_out)) ∧
    (ctx.canary_error_rate > 0.01 → ctx.canary_latency_p99 > 1000 →
      (advance ⟨ctx, .canary_monitoring, hist⟩ now).state = .canary_failed) := by
  constructor
  · show evaluate_canary ctx = _
    unfold evaluate_canary
    norm_num
  · intro he _
    show evaluate_canary ctx = _
    unfold evaluate_canary
    rw [if_pos he]

/-- Witness for claim C3: a canary exceeding both thresholds (error rate
0.02, latency 1500) is classified CANARY_FAILED. -/
theorem claim_C3_witness :
    (advance ⟨canaryCtx, .canary_monitoring, []⟩ 0).state = .canary_failed :=
  (claim_C3 canaryCtx [] 0).2 (by norm_num [canaryCtx]) (by norm_num [canaryCtx])

/-- Claim C4: from VALIDATING, advance returns VALIDATION_FAILED exactly
for production migrations without hotfix below 0.8 coverage, production
below 0.6, or staging below 0.4; otherwise BUILDING. -/
theorem claim_C4 (ctx : DeploymentContext)
    (hist : List (DeploymentState × DeploymentState × Int)) (now : Int) :
    (advance ⟨ctx, .validating, hist⟩ now).state =
      if (ctx.environment = "production" ∧ ctx.requires_migration = true ∧
            ctx.is_hotfix = false ∧ ctx.test_coverage < 0.8)
         ∨ (ctx.environment = "production" ∧ ctx.test_coverage < 0.6)
         ∨ (ctx.environment = "staging" ∧ ctx.test_coverage < 0.4)
      then .validation_failed else .building := by
  show validate ctx = _
  unfold validate
  split_ifs <;> simp_all <;> (try casesm* _ ∨ _, _ ∧ _) <;> (try simp_all) <;> (try linarith)

/-- Claim C5: from ROLLING_OUT, advance returns DEPLOYED at 100 percent,
ROLLING_BACK above 5 percent error rate, and otherwise steps the
percentage along 0, 25, 50, 100 while staying at ROLLING_OUT; from 0 with
a zero error rate four calls yield 25, 50, 100 and then DEPLOYED; and
rollout_percentage never decreases across advance calls. -/
theorem claim_C5 :
    (∀ (ctx : DeploymentContext) (hist : List (DeploymentState × DeploymentState × Int))
        (now : Int),
      ((advance ⟨ctx, .rolling_out, hist⟩ now).state =
        (if ctx.rollout_percentage ≥ 100 then .deployed
         else if ctx.canary_error_rate > 0.05 then .rolling_back
         else .rolling_out)) ∧
      (¬ ctx.rollout_percentage ≥ 100 → ¬ ctx.canary_error_rate > 0.05 →
        (advance ⟨ctx, .rolling_out, hist⟩ now).ctx.rollout_percentage =
          (if ctx.rollout_percentage < 25 then 25
           else if ctx.rollout_percentage < 50 then 50 else 100))) ∧
    (∀ (ctx : DeploymentContext) (hist : List (DeploymentState × DeploymentState × Int))
        (now : Int),
      ctx.rollout_percentage = 0 → ctx.canary_error_rate = 0 →
      (run ⟨ctx, .rolling_out, hist⟩ now 1).ctx.rollout_percentage = 25 ∧
      (run ⟨ctx, .rolling_out, hist⟩ now 1).state = .rolling_out ∧
      (run ⟨ctx, .rolling_out, hist⟩ now 2).ctx.rollout_percentage = 50 ∧
      (run ⟨ctx, .rolling_out, hist⟩ now 2).state = .rolling_out ∧
      (run ⟨ctx, .rolling_out, hist⟩ now 3).ctx.rollout_percentage = 100 ∧
      (run ⟨ctx, .rolling_out, hist⟩ now 3).state = .rolling_out ∧
      (run ⟨ctx, .rolling_out, hist⟩ now 4).state = .deployed) ∧
    (∀ (p : DeploymentPipeline) (now : Int),
      p.ctx.rollout_percentage ≤ (advance p now).ctx.rollout_percentage) := by
  refine ⟨?_, ?_, ?_⟩
  · intro ctx hist now
    constructor
    · show (check_rollout_progress ctx).1 = _
      unfold check_rollout_progress
      split_ifs <;> rfl
    · intro h1 h2
      show (check_rollout_progress ctx).2.rollout_percentage = _
      unfold check_rollout_progress
      split_ifs <;> first | rfl | linarith
  · intro ctx hist now hp he
    norm_num [run, advance, advanceStep, check_rollout_progress, hp, he]
  · intro p now
    show p.ctx.rollout_percentage ≤ (advanceStep p.state p.ctx now).2.rollout_percentage
    cases hs : p.state <;> simp [advanceStep]
    case validation_failed => split_ifs <;> simp
    case build_failed => split_ifs <;> simp
    case rolling_out =>
      unfold check_rollout_progress
      split_ifs <;> simp <;> linarith

/-- Witness for claim C5: starting the staged rollout at 0 percent with a
zero error rate, the fourth advance call reaches DEPLOYED and the first
reaches 25 percent. -/
theorem claim_C5_witness :
    (run ⟨stagedCtx, .rolling_out, []⟩ 0 1).ctx.rollout_percentage = 25 ∧
    (run ⟨stagedCtx, .rolling_out, []⟩ 0 4).state = .deployed :=
  ⟨(claim_C5.2.1 stagedCtx [] 0 rfl rfl).1,
   (claim_C5.2.1 stagedCtx [] 0 rfl rfl).2.2.2.2.2.2⟩

/-- Claim C6: cancel succeeds exactly from the eight-state guard set,
moving to CANCELLED and appending one entry; force_rollback succeeds
exactly outside PENDING, CANCELLED, ROLLED_BACK, moving to ROLLING_BACK
and appending one entry; a failing call leaves the pipeline unchanged. -/
theorem claim_C6 (p : DeploymentPipeline) (now : Int) :
    ((cancel p now).1 = none ↔
       (p.state = .pending ∨ p.state = .validating ∨ p.state = .validation_failed ∨
        p.state = .building ∨ p.state = .build_failed ∨ p.state = .testing ∨
        p.state = .awaiting_approval ∨ p.state = .rollout_paused)) ∧
    ((cancel p now).1 = none →
       (cancel p now).2.state = .cancelled ∧
       (cancel p now).2.history = p.history ++ [(p.state, .cancelled, now)]) ∧
    ((cancel p now).1 ≠ none → (cancel p now).2 = p) ∧
    ((force_rollback p now).1 = none ↔
       ¬ (p.state = .pending ∨ p.state = .cancelled ∨ p.state = .rolled_back)) ∧
    ((force_rollback p now).1 = none →
       (force_rollback p now).2.state = .rolling_back ∧
       (force_rollback p now).2.history = p.history ++ [(p.state, .rolling_back, now)]) ∧
    ((force_rollback p now).1 ≠ none → (force_rollback p now).2 = p) := by
  obtain ⟨ctx, s, hist⟩ := p
  cases s <;> simp [cancel, force_rollback, cancellable]

/-- Witness for claim C6: from DEPLOYING_CANARY, cancel fails and leaves
the pipeline unchanged, while force_rollback moves to ROLLING_BACK. -/
theorem claim_C6_witness :
    (cancel ⟨rolloutCtx, .deploying_canary, []⟩ 0).2 =
      (⟨rolloutCtx, .deploying_canary, []⟩ : DeploymentPipeline) ∧
    (force_rollback ⟨rolloutCtx, .deploying_canary, []⟩ 0).2.state = .rolling_back :=
  ⟨(claim_C6 ⟨rolloutCtx, .deploying_canary, []⟩ 0).2.2.1
      (by simp [cancel, cancellable]),
   ((claim_C6 ⟨rolloutCtx, .deploying_canary, []⟩ 0).2.2.2.2.1
      (by simp [force_rollback])).1⟩

/-- Claim C7 counterexample: a context violating every stated range
invariant is accepted by construction, which therefore does not fail. -/
theorem claim_C7_counterexample :
    (constructContext sampleBadContext).isOk = true ∧ ¬ contextRangesOk sampleBadContext := by
  refine ⟨rfl, ?_⟩
  norm_num [contextRangesOk, sampleBadContext]

/-- Claim C7 amended: construction of a DeploymentContext performs no
range validation at all — every assignment of field values is accepted
unchanged, including ones outside the spec ranges, and no InvalidContext
failure exists. -/
theorem claim_C7_amended :
    (∀ ctx : DeploymentContext, constructContext ctx = Except.ok ctx) ∧
    constructContext sampleBadContext = Except.ok sampleBadContext ∧
    ¬ contextRangesOk sampleBadContext :=
  ⟨fun _ => rfl, rfl, by norm_num [contextRangesOk, sampleBadContext]⟩

/-- Claim C8 counterexample: a successful force_rollback from the
ROLLING_BACK state appends a history entry even though the state value is
unchanged, so appending is not equivalent to a state change. -/
theorem claim_C8_counterexample :
    ¬ (((force_rollback ⟨sampleBadContext, .rolling_back, []⟩ 0).2.history
          ≠ (⟨sampleBadContext, .rolling_back, []⟩ : DeploymentPipeline).history)
        ↔ ((force_rollback ⟨sampleBadContext, .rolling_back, []⟩ 0).2.state
          ≠ (⟨sampleBadContext, .rolling_back, []⟩ : DeploymentPipeline).state)) := by
  simp [force_rollback]

/-- Claim C8 amended: the history is append-only — every operation either
leaves it unchanged or appends exactly one entry. advance appends exactly
when the state changed, and appends nothing from DEPLOYED, ROLLED_BACK or
CANCELLED; cancel and force_rollback append exactly one entry when they
succeed (a successful force_rollback from ROLLING_BACK appends even though
the state value is unchanged) and leave the pipeline untouched when they
fail. -/
theorem claim_C8_amended (p : DeploymentPipeline) (now : Int) :
    (((advance p now).state = p.state ∧ (advance p now).history = p.history) ∨
     ((advance p now).state ≠ p.state ∧
      (advance p now).history = p.history ++ [(p.state, (advance p now).state, now)])) ∧
    ((p.state = .deployed ∨ p.state = .rolled_back ∨ p.state = .cancelled) →
      (advance p now).state = p.state ∧ (advance p now).history = p.history) ∧
    ((cancel p now).1 = none →
      (cancel p now).2.history = p.history ++ [(p.state, .cancelled, now)] ∧
      (cancel p now).2.state ≠ p.state) ∧
    ((cancel p now).1 ≠ none → (cancel p now).2 = p) ∧
    ((force_rollback p now).1 = none →
      (force_rollback p now).2.history = p.history ++ [(p.state, .rolling_back, now)]) ∧
    ((force_rollback p now).1 ≠ none → (force_rollback p now).2 = p) := by
  obtain ⟨ctx, s, hist⟩ := p
  refine ⟨?_, ?_, ?_, ?_, ?_, ?_⟩
  · by_cases h : (advanceStep s ctx now).1 = s
    · exact Or.inl ⟨h, by simp [advance, h]⟩
    · exact Or.inr ⟨h, by simp [advance, h]⟩
  · intro h
    rcases h with h | h | h <;> subst h <;> simp [advance, advanceStep]
  · cases s <;> simp [cancel, cancellable]
  · cases s <;> simp [cancel, cancellable]
  · cases s <;> simp [force_rollback]
  · cases s <;> simp [force_rollback]

/-- Witness for claim C8 amended: advance from DEPLOYED keeps the state
and appends nothing. -/
theorem claim_C8_witness :
    (advance ⟨rolloutCtx, .deployed, []⟩ 0).state =
      (⟨rolloutCtx, .deployed, []⟩ : DeploymentPipeline).state ∧
    (advance ⟨rolloutCtx, .deployed, []⟩ 0).history =
      (⟨rolloutCtx, .deployed, []⟩ : DeploymentPipeline).history :=
  (claim_C8_amended ⟨rolloutCtx, .deployed, []⟩ 0).2.1 (Or.inl rfl)

/-- Claim C9 counterexample: from ROLLING_OUT at 50 percent with a zero
error rate, the first advance call leaves the state unchanged (while
silently stepping the percentage to 100), and a second call with no
intervening context mutation reaches DEPLOYED and appends a history
entry — refuting both the same-resulting-state clause and the
no-additional-entry clause of the claim at this input. -/
theorem claim_C9_counterexample :
    ¬ ((advance (advance ⟨rolloutCtx, .rolling_out, []⟩ 0) 0).state
         = (advance ⟨rolloutCtx, .rolling_out, []⟩ 0).state ∧
       ((advance ⟨rolloutCtx, .rolling_out, []⟩ 0).state
          = (⟨rolloutCtx, .rolling_out, []⟩ : DeploymentPipeline).state →
        (advance (advance ⟨rolloutCtx, .rolling_out, []⟩ 0) 0).history
          = (advance ⟨rolloutCtx, .rolling_out, []⟩ 0).history)) := by
  norm_num [advance, advanceStep, check_rollout_progress, rolloutCtx]
  decide

/-- Claim C9 amended: the resulting state and updated context of advance
are a pure function of the current state, the context field values and the
evaluation time, independent of the history; and whenever a call leaves
both the state and the context unchanged, a repeated call at the same time
returns the same state and appends no additional history entry. -/
theorem claim_C9_amended :
    (∀ (p q : DeploymentPipeline) (now : Int), p.state = q.state → p.ctx = q.ctx →
       (advance p now).state = (advance q now).state ∧
       (advance p now).ctx = (advance q now).ctx) ∧
    (∀ (p : DeploymentPipeline) (now : Int),
       (advance p now).state = p.state → (advance p now).ctx = p.ctx →
       (advance (advance p now) now).state = p.state ∧
       (advance (advance p now) now).history = (advance p now).history) := by
  constructor
  · intro p q now hs hc
    constructor
    · show (advanceStep p.state p.ctx now).1 = (advanceStep q.state q.ctx now).1
      rw [hs, hc]
    · show (advanceStep p.state p.ctx now).2 = (advanceStep q.state q.ctx now).2
      rw [hs, hc]
  · intro p now h1 h2
    have hstep : (advanceStep (advance p now).state (advance p now).ctx now).1 = p.state := by
      rw [h1, h2]
      exact h1
    refine ⟨hstep, ?_⟩
    show (if (advanceStep (advance p now).state (advance p now).ctx now).1 ≠ (advance p now).state
            then (advance p now).history ++
              [((advance p now).state,
                (advanceStep (advance p now).state (advance p now).ctx now).1, now)]
            else (advance p now).history) = (advance p now).history
    rw [hstep, h1]
    simp

/-- Witness for claim C9 amended: advance from DEPLOYED changes neither
state nor context, and its repetition adds no history entry. -/
theorem claim_C9_witness :
    (advance (advance ⟨rolloutCtx, .deployed, []⟩ 0) 0).state
      = (⟨rolloutCtx, .deployed, []⟩ : DeploymentPipeline).state ∧
    (advance (advance ⟨rolloutCtx, .deployed, []⟩ 0) 0).history
      = (advance ⟨rolloutCtx, .deployed, []⟩ 0).history :=
  claim_C9_amended.2 ⟨rolloutCtx, .deployed, []⟩ 0 rfl rfl

/-- Claim C10: for an environment that is neither production nor staging,
advance from VALIDATING returns BUILDING regardless of coverage, and
advance from TESTING never returns TEST_FAILED. -/
theorem claim_C10 (ctx : DeploymentContext)
    (hist : List (DeploymentState × DeploymentState × Int)) (now : Int)
    (h1 : ctx.environment ≠ "production") (h2 : ctx.environment ≠ "staging") :
    (advance ⟨ctx, .validating, hist⟩ now).state = .building ∧
    (advance ⟨ctx, .testing, hist⟩ now).state ≠ .test_failed := by
  constructor
  · show validate ctx = _
    simp [validate, h1, h2]
  · show run_tests ctx ≠ _
    simp only [run_tests]
    split_ifs <;> simp_all

/-- Witness for claim C10 at a concrete context with environment dev and
zero coverage. -/
theorem claim_C10_witness :
    (advance ⟨devCtx, .validating, []⟩ 0).state = .building ∧
    (advance ⟨devCtx, .testing, []⟩ 0).state ≠ .test_failed :=
  claim_C10 devCtx [] 0 (by simp [devCtx]) (by simp [devCtx])
